import Mathlib

/-
Shallow embedding of `src/transcribe.py`, an interactive utility that converts
local or remote media into WAV audio and submits it to an external
speech-recognition pipeline (`tafrigh.farrigh`), keyed by a per-language
credential loaded from the environment.

External collaborators (the `yt-dlp` downloader, the `ffmpeg` transcoder, the
transcription pipeline, the filesystem and standard input) are modelled as
oracles collected in a `World` record.  Each Python function becomes a Lean
function from a `World` (plus its arguments) to a result paired with the list
of observable events it emits (prints, log records, subprocess invocations,
transcription-pipeline invocations).  `sys.exit(1)` and uncaught exceptions
are modelled by the `PyResult` type and propagate through the callers exactly
as they do in Python (`SystemExit` is not an `Exception`, so the
`except Exception` handler in `transcribe_file` does not catch it).
-/

set_option autoImplicit false

/-- `tafrigh.TranscriptType` values used by the program (line 113). -/
inductive TranscriptType where
  | TXT
  | SRT
deriving DecidableEq, Repr

/-- Model of a `pathlib.Path`: parent directory, stem, and extension
(the extension includes its leading dot; `""` means no extension). -/
structure FPath where
  parent : String
  stem : String
  ext : String
deriving DecidableEq, Repr

/-- `Path.name`: final component, stem plus extension. -/
def FPath.name (p : FPath) : String := p.stem ++ p.ext

/-- `str(path)`: the rendered path. -/
def FPath.toStr (p : FPath) : String := p.parent ++ "/" ++ p.stem ++ p.ext

/-- `Path.suffix`: the extension, with its leading dot. -/
def FPath.suffix (p : FPath) : String := p.ext

/-- `Path.with_suffix(e)`: same parent and stem, new extension (lines 44, 56). -/
def FPath.with_suffix (p : FPath) (e : String) : FPath := { p with ext := e }

/-- Python `str.upper()` restricted to the ASCII inputs this program uses. -/
def strUpper (s : String) : String := ⟨s.data.map Char.toUpper⟩

/-- Python `str.lower()` restricted to the ASCII inputs this program uses. -/
def strLower (s : String) : String := ⟨s.data.map Char.toLower⟩

/-- Python `str.strip()`: drop leading and trailing whitespace. -/
def strTrim (s : String) : String :=
  ⟨((s.data.dropWhile Char.isWhitespace).reverse.dropWhile Char.isWhitespace).reverse⟩

/-- The four optional environment credentials read at startup (lines 16-21). -/
structure Env where
  english : Option String
  arabic : Option String
  french : Option String
  japanese : Option String
deriving DecidableEq

/-- `LANGUAGE_API_KEYS` (lines 16-21) viewed as the dictionary lookup
`LANGUAGE_API_KEYS.get(code)`: the value stored under a recognized code
(itself an `Option`, since `os.getenv` may return `None`), and `none` for an
unrecognized code (missing dictionary key). -/
def LANGUAGE_API_KEYS (env : Env) (code : String) : Option String :=
  if code = "EN" then env.english
  else if code = "AR" then env.arabic
  else if code = "FR" then env.french
  else if code = "JA" then env.japanese
  else none

/-- Python truthiness of an optional string: `None` and `""` are falsy.
Used for `any(LANGUAGE_API_KEYS.values())` (line 24) and
`if not wit_api_key` (line 80). -/
def truthy : Option String → Bool
  | none => false
  | some s => s != ""

/-- `any(LANGUAGE_API_KEYS.values())` (line 24). -/
def anyKeyConfigured (env : Env) : Bool :=
  truthy env.english || truthy env.arabic || truthy env.french || truthy env.japanese

/-- `Config.Input` bundle built at lines 86-92. -/
structure Config.Input where
  urls_or_paths : List String
  skip_if_output_exist : Bool
  playlist_items : String
  download_retries : Nat
  verbose : Bool
deriving DecidableEq, Repr

/-- `Config.Whisper` bundle built at lines 94-101. -/
structure Config.Whisper where
  model_name_or_path : String
  task : String
  language : String
  use_faster_whisper : Bool
  beam_size : Nat
  ct2_compute_type : String
deriving DecidableEq, Repr

/-- `Config.Wit` bundle built at lines 103-106. -/
structure Config.Wit where
  wit_client_access_tokens : List String
  max_cutting_duration : Nat
deriving DecidableEq, Repr

/-- `Config.Output` bundle built at lines 108-115. -/
structure Config.Output where
  min_words_per_segment : Nat
  save_files_before_compact : Bool
  save_yt_dlp_responses : Bool
  output_sample : Nat
  output_formats : List TranscriptType
  output_dir : String
deriving DecidableEq, Repr

/-- The `tafrigh.Config` bundle handed to `farrigh` (lines 118-123). -/
structure Config where
  input : Config.Input
  whisper : Config.Whisper
  wit : Config.Wit
  output : Config.Output
deriving DecidableEq, Repr

/-- Observable events of a run: user-facing prints, log records, prompts
shown on standard input, subprocess invocations, transcription dispatches
(calls of `transcribe_file` by the orchestrator), and invocations of the
external transcription pipeline `farrigh`. -/
inductive Event where
  | printed (msg : String)
  | logged (msg : String)
  | prompted (msg : String)
  | ranProcess (cmd : List String)
  | dispatched (file : FPath) (language_sign : String)
  | pipelineInvoked (config : Config)
deriving DecidableEq, Repr

/-- How a Python computation ends: normal value, `sys.exit(code)`, or an
uncaught exception. -/
inductive PyResult (α : Type) where
  | ok (val : α)
  | exited (code : Nat)
  | raised (exn : String)
deriving DecidableEq, Repr

/-- The oracles for everything outside the program: the environment
credentials, the filesystem (bytes of each file, `none` meaning the open or
read raises an `IOError`/`OSError`), directory structure, path parsing,
standard input (the k-th answer typed by the operator), the exit status of
each external process invocation, the outcome of running the transcription
pipeline on a configuration (`none` = completes, `some e` = raises the
exception rendered as `e`), and the `.wav` files found in the downloads
directory after a download. -/
structure World where
  env : Env
  fileBytes : FPath → Option (List Nat)
  isDir : FPath → Bool
  listDir : FPath → List FPath
  parsePath : String → FPath
  stdin : Nat → String
  procExit : List String → Nat
  pipelineRun : Config → Option String
  downloadsWavs : List FPath

/-- The bytes `b'RIFF'` (line 70). -/
def riffMarker : List Nat := [82, 73, 70, 70]

/-- `is_wav_file` (lines 67-72): open the file, read at most 4 bytes, compare
with `b'RIFF'`; any `IOError` yields `False`. -/
def is_wav_file (w : World) (file_path : FPath) : Bool :=
  match w.fileBytes file_path with
  | none => false
  | some bytes => bytes.take 4 == riffMarker

/-- The `yt-dlp` command line built at lines 32-33 (the output template is the
`downloads` directory next to the script). -/
def ytDlpCmd (youtube_url : String) : List String :=
  ["yt-dlp", "-x", "--audio-format", "wav", "-o", "downloads/%(id)s.%(ext)s", youtube_url]

/-- `download_youtube_audio` (lines 31-41): run `yt-dlp`; on exit 0 return
`next(glob('downloads/*.wav'))`, which raises `StopIteration` when the glob is
empty (not caught: the handler only catches `CalledProcessError`); on non-zero
exit, log, print, and `sys.exit(1)`. -/
def download_youtube_audio (w : World) (youtube_url : String) : PyResult FPath × List Event :=
  let command := ytDlpCmd youtube_url
  if w.procExit command == 0 then
    match w.downloadsWavs with
    | audio_file :: _ => (.ok audio_file, [.ranProcess command])
    | [] => (.raised "StopIteration", [.ranProcess command])
  else
    (.exited 1,
      [.ranProcess command,
       .logged "Error downloading YouTube audio: CalledProcessError",
       .printed "Error downloading YouTube audio. Check the logs for more information."])

/-- The `ffmpeg` command line built at line 45. -/
def ffmpegVideoCmd (video_path : FPath) : List String :=
  ["ffmpeg", "-i", video_path.toStr, "-vn", "-acodec", "pcm_s16le", "-ar", "44100",
   "-ac", "2", (video_path.with_suffix ".wav").toStr]

/-- `convert_video_to_audio` (lines 43-53): run `ffmpeg`; on exit 0 print and
return the sibling `.wav` path; on non-zero exit, log, print, `sys.exit(1)`. -/
def convert_video_to_audio (w : World) (video_path : FPath) : PyResult FPath × List Event :=
  let audio_output_path := video_path.with_suffix ".wav"
  let command := ffmpegVideoCmd video_path
  if w.procExit command == 0 then
    (.ok audio_output_path,
      [.ranProcess command,
       .printed ("Video converted to audio: " ++ audio_output_path.toStr)])
  else
    (.exited 1,
      [.ranProcess command,
       .logged "Error converting video to audio: CalledProcessError",
       .printed "Error converting video to audio. Check the logs for more information."])

/-- The `ffmpeg` command line built at line 57. -/
def ffmpegMp3Cmd (mp3_path : FPath) : List String :=
  ["ffmpeg", "-i", mp3_path.toStr, (mp3_path.with_suffix ".wav").toStr]

/-- `convert_mp3_to_wav` (lines 55-65): run `ffmpeg`; on exit 0 print and
return the sibling `.wav` path; on non-zero exit, log, print, `sys.exit(1)`. -/
def convert_mp3_to_wav (w : World) (mp3_path : FPath) : PyResult FPath × List Event :=
  let wav_output_path := mp3_path.with_suffix ".wav"
  let command := ffmpegMp3Cmd mp3_path
  if w.procExit command == 0 then
    (.ok wav_output_path,
      [.ranProcess command,
       .printed ("MP3 converted to WAV: " ++ wav_output_path.toStr)])
  else
    (.exited 1,
      [.ranProcess command,
       .logged "Error converting MP3 to WAV: CalledProcessError",
       .printed "Error converting MP3 to WAV. Check the logs for more information."])

/-- The configuration bundle assembled at lines 86-123 for one file, one
language sign, and the resolved credential. -/
def mkConfig (file_path : FPath) (language_sign : String) (wit_api_key : String) : Config :=
  { input :=
      { urls_or_paths := [file_path.toStr]
      , skip_if_output_exist := false
      , playlist_items := ""
      , download_retries := 3
      , verbose := false }
  , whisper :=
      { model_name_or_path := "path/to/your/model"
      , task := "transcribe"
      , language := language_sign
      , use_faster_whisper := false
      , beam_size := 0
      , ct2_compute_type := "" }
  , wit :=
      { wit_client_access_tokens := [wit_api_key]
      , max_cutting_duration := 5 }
  , output :=
      { min_words_per_segment := 1
      , save_files_before_compact := false
      , save_yt_dlp_responses := false
      , output_sample := 0
      , output_formats := [TranscriptType.TXT, TranscriptType.SRT]
      , output_dir := file_path.parent } }

/-- `transcribe_file` (lines 74-130): skip a non-WAV file; skip when
`LANGUAGE_API_KEYS.get(language_sign.upper())` is falsy; otherwise build the
configuration, print, run `farrigh` draining its progress stream, and catch
any pipeline exception (log + print), always returning normally. -/
def transcribe_file (w : World) (file_path : FPath) (language_sign : String) :
    PyResult Unit × List Event :=
  if !is_wav_file w file_path then
    (.ok (), [.printed ("Skipping file " ++ file_path.toStr ++ " as it is not in WAV format.")])
  else
    let wit_api_key := LANGUAGE_API_KEYS w.env (strUpper language_sign)
    if !truthy wit_api_key then
      (.ok (), [.printed ("API key not found for language: " ++ language_sign)])
    else
      let config := mkConfig file_path language_sign (wit_api_key.getD "")
      match w.pipelineRun config with
      | none =>
        (.ok (),
          [.printed ("Transcribing file: " ++ file_path.toStr),
           .pipelineInvoked config,
           .printed "Transcription completed. Check the output directory for the generated files."])
      | some e =>
        (.ok (),
          [.printed ("Transcribing file: " ++ file_path.toStr),
           .pipelineInvoked config,
           .logged ("Error during transcription: " ++ e),
           .printed "Error during transcription. Check the logs for more information."])

/-- The per-file language prompt used in directory mode (lines 148, 152, 156). -/
def langPromptFor (name : String) : String :=
  "Enter the language sign for " ++ name ++ " (e.g., EN, AR, FR, JA): "

/-- One iteration of the directory loop (lines 146-157): classify the entry by
lowercased extension; `.wav` is dispatched directly, `.mp3` and video
extensions are converted first (a conversion failure exits the process),
any other extension falls through with no prompt and no dispatch.  `idx` is
the index of the next unread answer on standard input. -/
def processEntry (w : World) (idx : Nat) (file : FPath) :
    PyResult Unit × List Event × Nat :=
  if strLower file.suffix = ".wav" then
    let language_sign := w.stdin idx
    let r := transcribe_file w file language_sign
    (r.1, [.prompted (langPromptFor file.name), .dispatched file language_sign] ++ r.2, idx + 1)
  else if strLower file.suffix = ".mp3" then
    match convert_mp3_to_wav w file with
    | (.ok wav_file, es) =>
      let language_sign := w.stdin idx
      let r := transcribe_file w wav_file language_sign
      (r.1, es ++ [.prompted (langPromptFor file.name), .dispatched wav_file language_sign] ++ r.2,
       idx + 1)
    | (.exited c, es) => (.exited c, es, idx)
    | (.raised e, es) => (.raised e, es, idx)
  else if [".mp4", ".mkv", ".avi"].contains (strLower file.suffix) then
    match convert_video_to_audio w file with
    | (.ok audio_file, es) =>
      let language_sign := w.stdin idx
      let r := transcribe_file w audio_file language_sign
      (r.1,
       es ++ [.prompted (langPromptFor file.name), .dispatched audio_file language_sign] ++ r.2,
       idx + 1)
    | (.exited c, es) => (.exited c, es, idx)
    | (.raised e, es) => (.raised e, es, idx)
  else
    (.ok (), [], idx)

/-- The directory loop `for file in file_path.glob('*')` (lines 146-157): runs
`processEntry` on each immediate entry in enumeration order; a `sys.exit` or
uncaught exception inside an iteration stops the loop and propagates. -/
def processDir (w : World) (idx : Nat) : List FPath → PyResult Unit × List Event × Nat
  | [] => (.ok (), [], idx)
  | file :: rest =>
    match processEntry w idx file with
    | (.ok _, es, idx1) =>
      let r := processDir w idx1 rest
      (r.1, es ++ r.2.1, r.2.2)
    | (.exited c, es, idx1) => (.exited c, es, idx1)
    | (.raised e, es, idx1) => (.raised e, es, idx1)

/-- The mode prompt (line 133). -/
def choicePrompt : String :=
  "Do you want to transcribe a YouTube video (Y) or a local file (L)? [Y/L]: "

/-- The single-file language prompt (line 163). -/
def singleLangPrompt : String := "Enter the language sign (e.g., EN, AR, FR): "

/-- `main` (lines 132-167): read the mode choice; `Y` runs the downloader then
dispatches; `L` reads a path, loops over a directory or classifies and
converts a single file then prompts once and dispatches; anything else prints
a message and exits with status 1. -/
def mainEntry (w : World) : PyResult Unit × List Event :=
  let choice := strUpper (strTrim (w.stdin 0))
  if choice = "Y" then
    let youtube_url := w.stdin 1
    let language_sign := w.stdin 2
    let pre := [Event.prompted choicePrompt,
                Event.prompted "Enter the YouTube video link: ",
                Event.prompted "Enter the language sign (e.g., EN, AR, FR, JA): "]
    match download_youtube_audio w youtube_url with
    | (.ok audio_file, es) =>
      let r := transcribe_file w audio_file language_sign
      (r.1, pre ++ es ++ [.dispatched audio_file language_sign] ++ r.2)
    | (.exited c, es) => (.exited c, pre ++ es)
    | (.raised e, es) => (.raised e, pre ++ es)
  else if choice = "L" then
    let file_path := w.parsePath (w.stdin 1)
    let pre := [Event.prompted choicePrompt,
                Event.prompted "Enter the path to the local file or directory: "]
    if w.isDir file_path then
      let r := processDir w 2 (w.listDir file_path)
      (r.1, pre ++ r.2.1)
    else if strLower file_path.suffix = ".mp3" then
      match convert_mp3_to_wav w file_path with
      | (.ok wav_file, es) =>
        let language_sign := w.stdin 2
        let r := transcribe_file w wav_file language_sign
        (r.1, pre ++ es ++ [.prompted singleLangPrompt, .dispatched wav_file language_sign] ++ r.2)
      | (.exited c, es) => (.exited c, pre ++ es)
      | (.raised e, es) => (.raised e, pre ++ es)
    else if [".mp4", ".mkv", ".avi"].contains (strLower file_path.suffix) then
      match convert_video_to_audio w file_path with
      | (.ok audio_file, es) =>
        let language_sign := w.stdin 2
        let r := transcribe_file w audio_file language_sign
        (r.1,
         pre ++ es ++ [.prompted singleLangPrompt, .dispatched audio_file language_sign] ++ r.2)
      | (.exited c, es) => (.exited c, pre ++ es)
      | (.raised e, es) => (.raised e, pre ++ es)
    else
      let language_sign := w.stdin 2
      let r := transcribe_file w file_path language_sign
      (r.1, pre ++ [.prompted singleLangPrompt, .dispatched file_path language_sign] ++ r.2)
  else
    (.exited 1, [.prompted choicePrompt, .printed "Invalid choice. Exiting."])

/-- The module-level credential check (lines 23-26), run at import time,
before `main` is entered. -/
def startupCheck (env : Env) : PyResult Unit × List Event :=
  if !anyKeyConfigured env then
    (.exited 1, [.printed "Error: At least one Wit.ai API key must be provided in the .env file."])
  else
    (.ok (), [])

/-- The whole process: the import-time startup check, then `main`
(lines 23-26 and 169-170). -/
def runProgram (w : World) : PyResult Unit × List Event :=
  match startupCheck w.env with
  | (.ok _, es) =>
    let r := mainEntry w
    (r.1, es ++ r.2)
  | (.exited c, es) => (.exited c, es)
  | (.raised e, es) => (.raised e, es)

/-- Recognizer for transcription-dispatch events. -/
def Event.isDispatch : Event → Bool
  | .dispatched _ _ => true
  | _ => false

/-- Recognizer for conversion events: an `ffmpeg` subprocess invocation. -/
def Event.isConversion : Event → Bool
  | .ranProcess cmd => cmd.head? == some "ffmpeg"
  | _ => false

/-- Recognizer for invocations of the external transcription pipeline. -/
def Event.isPipelineInvocation : Event → Bool
  | .pipelineInvoked _ => true
  | _ => false

/-- Recognizer for interactive prompts. -/
def Event.isPrompt : Event → Bool
  | .prompted _ => true
  | _ => false

/-- Recognizer for log records. -/
def Event.isLog : Event → Bool
  | .logged _ => true
  | _ => false

/-- `transcribe_file` returns normally on every input: the skip branches
return, and the `except Exception` handler swallows pipeline exceptions. -/
theorem transcribe_file_fst (w : World) (fp : FPath) (lang : String) :
    (transcribe_file w fp lang).1 = PyResult.ok () := by
  simp only [transcribe_file]
  split
  · rfl
  · split
    · rfl
    · split <;> rfl

/-- The dispatcher itself emits no dispatch, conversion, or prompt events:
those belong to the orchestrator. -/
theorem transcribe_file_trace_free (w : World) (fp : FPath) (lang : String) :
    (transcribe_file w fp lang).2.filter Event.isDispatch = [] ∧
    (transcribe_file w fp lang).2.filter Event.isConversion = [] ∧
    (transcribe_file w fp lang).2.filter Event.isPrompt = [] := by
  simp only [transcribe_file]
  split
  · exact ⟨rfl, rfl, rfl⟩
  · split
    · exact ⟨rfl, rfl, rfl⟩
    · split <;> exact ⟨rfl, rfl, rfl⟩

/-- A `.wav` directory entry is prompted for and dispatched directly, with no
conversion (lines 147-149). -/
theorem processEntry_wav (w : World) (idx : Nat) (f : FPath)
    (hf : strLower f.suffix = ".wav") :
    processEntry w idx f =
      (PyResult.ok (),
       [Event.prompted (langPromptFor f.name), Event.dispatched f (w.stdin idx)] ++
         (transcribe_file w f (w.stdin idx)).2,
       idx + 1) := by
  simp [processEntry, hf, transcribe_file_fst]

/-- An `.mp3` directory entry is converted, then prompted for and dispatched
under the converted path (lines 150-153). -/
theorem processEntry_mp3 (w : World) (idx : Nat) (f : FPath)
    (hf : strLower f.suffix = ".mp3")
    (hc : w.procExit (ffmpegMp3Cmd f) = 0) :
    processEntry w idx f =
      (PyResult.ok (),
       [Event.ranProcess (ffmpegMp3Cmd f),
        Event.printed ("MP3 converted to WAV: " ++ (f.with_suffix ".wav").toStr),
        Event.prompted (langPromptFor f.name),
        Event.dispatched (f.with_suffix ".wav") (w.stdin idx)] ++
         (transcribe_file w (f.with_suffix ".wav") (w.stdin idx)).2,
       idx + 1) := by
  have hconv : convert_mp3_to_wav w f =
      (.ok (f.with_suffix ".wav"),
       [.ranProcess (ffmpegMp3Cmd f),
        .printed ("MP3 converted to WAV: " ++ (f.with_suffix ".wav").toStr)]) := by
    simp [convert_mp3_to_wav, hc]
  simp [processEntry, hf, hconv, transcribe_file_fst]

/-- A video directory entry (`.mp4`/`.mkv`/`.avi`) is converted, then prompted
for and dispatched under the converted path (lines 154-157). -/
theorem processEntry_video (w : World) (idx : Nat) (f : FPath)
    (hf : [".mp4", ".mkv", ".avi"].contains (strLower f.suffix) = true)
    (hc : w.procExit (ffmpegVideoCmd f) = 0) :
    processEntry w idx f =
      (PyResult.ok (),
       [Event.ranProcess (ffmpegVideoCmd f),
        Event.printed ("Video converted to audio: " ++ (f.with_suffix ".wav").toStr),
        Event.prompted (langPromptFor f.name),
        Event.dispatched (f.with_suffix ".wav") (w.stdin idx)] ++
         (transcribe_file w (f.with_suffix ".wav") (w.stdin idx)).2,
       idx + 1) := by
  have hconv : convert_video_to_audio w f =
      (.ok (f.with_suffix ".wav"),
       [.ranProcess (ffmpegVideoCmd f),
        .printed ("Video converted to audio: " ++ (f.with_suffix ".wav").toStr)]) := by
    simp [convert_video_to_audio, hc]
  simp at hf
  rcases hf with h | h | h <;>
    simp [processEntry, h, hconv, transcribe_file_fst]

/-- A directory entry of any other extension is skipped: no prompt, no
conversion, no dispatch, nothing at all (no matching branch at lines
147-157). -/
theorem processEntry_other (w : World) (idx : Nat) (f : FPath)
    (hf : strLower f.suffix ∉ ([".wav", ".mp3", ".mp4", ".mkv", ".avi"] : List String)) :
    processEntry w idx f = (PyResult.ok (), [], idx) := by
  simp at hf
  simp [processEntry, hf.1, hf.2.1, hf.2.2.1, hf.2.2.2.1, hf.2.2.2.2]

/-- Unfolding the directory loop by one entry that completed normally. -/
theorem processDir_cons (w : World) (idx idx1 : Nat) (f : FPath) (rest : List FPath)
    (es : List Event)
    (h : processEntry w idx f = (PyResult.ok (), es, idx1)) :
    processDir w idx (f :: rest) =
      ((processDir w idx1 rest).1,
       es ++ (processDir w idx1 rest).2.1,
       (processDir w idx1 rest).2.2) := by
  simp only [processDir, h]

/-- Bytes of a well-formed WAV file: the `RIFF` marker and some payload. -/
def wavBytes : List Nat := [82, 73, 70, 70, 36, 0]

/-- A sample environment with one configured credential (English). -/
def sampleEnv : Env := ⟨some "KEY-EN", none, none, none⟩

/-- A sample WAV path. -/
def samplePath : FPath := ⟨"/media", "clip", ".wav"⟩

/-- A sample world: one English credential, every file readable and WAV,
plain-file paths, operator always answers `L`, every external process exits 0,
the pipeline completes, and the downloads directory is empty. -/
def baseWorld : World :=
  { env := sampleEnv
  , fileBytes := fun _ => some wavBytes
  , isDir := fun _ => false
  , listDir := fun _ => []
  , parsePath := fun _ => samplePath
  , stdin := fun _ => "L"
  , procExit := fun _ => 0
  , pipelineRun := fun _ => none
  , downloadsWavs := [] }

/-- A world where no file can be opened. -/
def unreadableWorld : World := { baseWorld with fileBytes := fun _ => none }

/-- A world with no usable credential: one variable unset on each path of
interest and one set to the empty string (falsy in Python). -/
def noKeyWorld : World := { baseWorld with env := ⟨none, some "", none, none⟩ }

/-- C5: `is_wav_file` returns true exactly for readable files whose first
4 bytes are the ASCII marker `RIFF`; unreadable files (missing, permission
error, directory — any `IOError`) and empty files yield false instead of an
error, and the function performs no writes (it is a pure function of the
filesystem oracle). -/
theorem is_wav_file_spec (w : World) (p : FPath) :
    (is_wav_file w p = true ↔
      ∃ bytes, w.fileBytes p = some bytes ∧ bytes.take 4 = riffMarker) ∧
    (w.fileBytes p = none → is_wav_file w p = false) ∧
    (w.fileBytes p = some [] → is_wav_file w p = false) := by
  unfold is_wav_file
  cases h : w.fileBytes p with
  | none => simp
  | some bytes =>
    refine ⟨?_, by simp, ?_⟩
    · simp only [beq_iff_eq]
      constructor
      · intro hb; exact ⟨bytes, rfl, hb⟩
      · rintro ⟨bs, hbs, hb⟩
        obtain rfl : bytes = bs := by injection hbs
        exact hb
    · intro hb
      obtain rfl : bytes = [] := by injection hb
      rfl

/-- Witness for C5 at a concrete world: the sample WAV file probes true. -/
theorem is_wav_file_spec_witness : is_wav_file baseWorld samplePath = true :=
  (is_wav_file_spec baseWorld samplePath).1.mpr ⟨wavBytes, rfl, by decide⟩

/-- C4: dispatching a file the Format Prober rejects returns normally before
the pipeline is ever invoked, emitting only the skip message — no pipeline
invocation, no conversion, no write, no exception. -/
theorem non_wav_dispatch_short_circuits (w : World) (fp : FPath) (lang : String)
    (h : is_wav_file w fp = false) :
    transcribe_file w fp lang =
      (PyResult.ok (),
       [Event.printed ("Skipping file " ++ fp.toStr ++ " as it is not in WAV format.")]) ∧
    (transcribe_file w fp lang).2.filter Event.isPipelineInvocation = [] := by
  have h1 : transcribe_file w fp lang =
      (PyResult.ok (),
       [Event.printed ("Skipping file " ++ fp.toStr ++ " as it is not in WAV format.")]) := by
    simp [transcribe_file, h]
  exact ⟨h1, by rw [h1]; rfl⟩

/-- Witness for C4: an unreadable (hence non-WAV) file is skipped. -/
theorem non_wav_dispatch_short_circuits_witness :
    transcribe_file unreadableWorld samplePath "EN" =
      (PyResult.ok (),
       [Event.printed ("Skipping file " ++ samplePath.toStr ++ " as it is not in WAV format.")]) :=
  (non_wav_dispatch_short_circuits unreadableWorld samplePath "EN" (by decide)).1

/-- C3: when none of the four recognized language codes has a configured
credential (unset or empty), the process prints the diagnostic and exits with
status 1 at startup — the trace contains no interactive prompt. -/
theorem startup_without_credentials_exits_before_prompt (w : World)
    (hEN : truthy w.env.english = false) (hAR : truthy w.env.arabic = false)
    (hFR : truthy w.env.french = false) (hJA : truthy w.env.japanese = false) :
    runProgram w =
      (PyResult.exited 1,
       [Event.printed "Error: At least one Wit.ai API key must be provided in the .env file."]) ∧
    (runProgram w).2.filter Event.isPrompt = [] := by
  have hs : startupCheck w.env =
      (PyResult.exited 1,
       [Event.printed "Error: At least one Wit.ai API key must be provided in the .env file."]) := by
    simp [startupCheck, anyKeyConfigured, hEN, hAR, hFR, hJA]
  have h1 : runProgram w =
      (PyResult.exited 1,
       [Event.printed "Error: At least one Wit.ai API key must be provided in the .env file."]) := by
    simp only [runProgram, hs]
  exact ⟨h1, by rw [h1]; rfl⟩

/-- Witness for C3: with every credential unset or empty the process exits 1
without prompting. -/
theorem startup_without_credentials_exits_before_prompt_witness :
    runProgram noKeyWorld =
      (PyResult.exited 1,
       [Event.printed "Error: At least one Wit.ai API key must be provided in the .env file."]) :=
  (startup_without_credentials_exits_before_prompt noKeyWorld
    (by decide) (by decide) (by decide) (by decide)).1

/-- C9: in Remote mode, when the downloader exits 0 but no `.wav` file is
found in the downloads directory, `download_youtube_audio` raises
`StopIteration` (uncaught: its handler only covers the non-zero-exit case),
so the run ends with an unhandled exception — nothing is logged and the
documented log-and-exit-non-zero path is not taken. -/
theorem empty_downloads_after_success_raises (w : World) (url : String)
    (hexit : w.procExit (ytDlpCmd url) = 0)
    (hempty : w.downloadsWavs = []) :
    download_youtube_audio w url =
      (PyResult.raised "StopIteration", [Event.ranProcess (ytDlpCmd url)]) ∧
    (download_youtube_audio w url).2.filter Event.isLog = [] ∧
    ∀ c : Nat, (download_youtube_audio w url).1 ≠ PyResult.exited c := by
  have h1 : download_youtube_audio w url =
      (PyResult.raised "StopIteration", [Event.ranProcess (ytDlpCmd url)]) := by
    simp [download_youtube_audio, hexit, hempty]
  refine ⟨h1, by rw [h1]; rfl, ?_⟩
  intro c
  rw [h1]
  simp

/-- Witness for C9: downloader succeeds into an empty downloads directory. -/
theorem empty_downloads_after_success_raises_witness :
    download_youtube_audio baseWorld "https://youtu.be/x" =
      (PyResult.raised "StopIteration",
       [Event.ranProcess (ytDlpCmd "https://youtu.be/x")]) :=
  (empty_downloads_after_success_raises baseWorld "https://youtu.be/x" rfl rfl).1

/-- C6: credential lookup at dispatch is `LANGUAGE_API_KEYS.get(sign.upper())`:
it depends only on the uppercased code, each recognized code resolves to its
configured credential, every unrecognized code resolves to "not found", and a
dispatch whose lookup is falsy skips the file and returns normally. -/
theorem credential_lookup_case_insensitive (env : Env) (w : World) (s : String) (fp : FPath)
    (hwav : is_wav_file w fp = true)
    (hmiss : truthy (LANGUAGE_API_KEYS w.env (strUpper s)) = false) :
    (∀ t u : String, strUpper t = strUpper u →
        LANGUAGE_API_KEYS env (strUpper t) = LANGUAGE_API_KEYS env (strUpper u)) ∧
    LANGUAGE_API_KEYS env "EN" = env.english ∧
    LANGUAGE_API_KEYS env "AR" = env.arabic ∧
    LANGUAGE_API_KEYS env "FR" = env.french ∧
    LANGUAGE_API_KEYS env "JA" = env.japanese ∧
    (∀ t : String, strUpper t ∉ (["EN", "AR", "FR", "JA"] : List String) →
        LANGUAGE_API_KEYS env (strUpper t) = none) ∧
    transcribe_file w fp s =
      (PyResult.ok (), [Event.printed ("API key not found for language: " ++ s)]) := by
  refine ⟨fun t u h => by rw [h], by simp [LANGUAGE_API_KEYS], by simp [LANGUAGE_API_KEYS],
    by simp [LANGUAGE_API_KEYS], by simp [LANGUAGE_API_KEYS], ?_, ?_⟩
  · intro t ht
    simp at ht
    simp [LANGUAGE_API_KEYS, ht.1, ht.2.1, ht.2.2.1, ht.2.2.2]
  · simp [transcribe_file, hwav, hmiss]

/-- Witness for C6 at a concrete input: the unrecognized code `XX` is skipped
while the process keeps running normally. -/
theorem credential_lookup_case_insensitive_witness :
    transcribe_file baseWorld samplePath "XX" =
      (PyResult.ok (), [Event.printed ("API key not found for language: " ++ "XX")]) :=
  (credential_lookup_case_insensitive sampleEnv baseWorld "XX" samplePath
    (by decide) (by decide)).2.2.2.2.2.2

/-- When the probe passes, the key resolves, and the pipeline raises, the
dispatcher emits exactly: the progress print, the pipeline invocation, the
error log record, and the user-facing error print — and returns normally. -/
theorem transcribe_file_error_trace (w : World) (fp : FPath) (lang k e : String)
    (hwav : is_wav_file w fp = true)
    (hkey : LANGUAGE_API_KEYS w.env (strUpper lang) = some k)
    (hk : k ≠ "")
    (hpipe : w.pipelineRun (mkConfig fp lang k) = some e) :
    transcribe_file w fp lang =
      (PyResult.ok (),
       [Event.printed ("Transcribing file: " ++ fp.toStr),
        Event.pipelineInvoked (mkConfig fp lang k),
        Event.logged ("Error during transcription: " ++ e),
        Event.printed "Error during transcription. Check the logs for more information."]) := by
  simp [transcribe_file, hwav, hkey, truthy, hk, hpipe]

/-- When the probe passes, the key resolves, and the pipeline completes, the
dispatcher emits the progress print, the pipeline invocation, and the
completion print. -/
theorem transcribe_file_success_trace (w : World) (fp : FPath) (lang k : String)
    (hwav : is_wav_file w fp = true)
    (hkey : LANGUAGE_API_KEYS w.env (strUpper lang) = some k)
    (hk : k ≠ "")
    (hpipe : w.pipelineRun (mkConfig fp lang k) = none) :
    transcribe_file w fp lang =
      (PyResult.ok (),
       [Event.printed ("Transcribing file: " ++ fp.toStr),
        Event.pipelineInvoked (mkConfig fp lang k),
        Event.printed "Transcription completed. Check the output directory for the generated files."]) := by
  simp [transcribe_file, hwav, hkey, truthy, hk, hpipe]

/-- Over a directory whose entries are all `.wav`, the loop completes
normally, dispatches once per entry, and consumes one language answer per
entry — no failure of one dispatch stops the batch. -/
theorem processDir_all_wav (w : World) :
    ∀ (files : List FPath), (∀ f ∈ files, strLower f.suffix = ".wav") →
    ∀ idx : Nat,
      (processDir w idx files).1 = PyResult.ok () ∧
      ((processDir w idx files).2.1.filter Event.isDispatch).length = files.length ∧
      (processDir w idx files).2.2 = idx + files.length := by
  intro files
  induction files with
  | nil => intro _ idx; exact ⟨rfl, rfl, rfl⟩
  | cons f rest ih =>
    intro h idx
    have hf : strLower f.suffix = ".wav" := h f (List.mem_cons_self f rest)
    have hrest := ih (fun g hg => h g (List.mem_cons_of_mem f hg)) (idx + 1)
    rw [processDir_cons w idx (idx + 1) f rest _ (processEntry_wav w idx f hf)]
    refine ⟨hrest.1, ?_, ?_⟩
    · have hd := (transcribe_file_trace_free w f (w.stdin idx)).1
      simp [List.filter_append, hd, Event.isDispatch, hrest.2.1]
    · simp only [hrest.2.2, List.length_cons]
      omega

/-- C1: an exception raised by the transcription pipeline is caught by the
dispatcher: the failure is logged and reported to the user, `transcribe_file`
returns normally (it returns normally on every input), and a directory batch
keeps dispatching the remaining files regardless of per-file outcomes. -/
theorem pipeline_exception_is_caught_and_batch_continues
    (w : World) (fp : FPath) (lang k e : String) (files : List FPath) (idx : Nat)
    (hwav : is_wav_file w fp = true)
    (hkey : LANGUAGE_API_KEYS w.env (strUpper lang) = some k)
    (hk : k ≠ "")
    (hpipe : w.pipelineRun (mkConfig fp lang k) = some e)
    (hfiles : ∀ f ∈ files, strLower f.suffix = ".wav") :
    (transcribe_file w fp lang).1 = PyResult.ok () ∧
    transcribe_file w fp lang =
      (PyResult.ok (),
       [Event.printed ("Transcribing file: " ++ fp.toStr),
        Event.pipelineInvoked (mkConfig fp lang k),
        Event.logged ("Error during transcription: " ++ e),
        Event.printed "Error during transcription. Check the logs for more information."]) ∧
    (processDir w idx files).1 = PyResult.ok () ∧
    ((processDir w idx files).2.1.filter Event.isDispatch).length = files.length :=
  ⟨transcribe_file_fst w fp lang,
   transcribe_file_error_trace w fp lang k e hwav hkey hk hpipe,
   (processDir_all_wav w files hfiles idx).1,
   (processDir_all_wav w files hfiles idx).2.1⟩

/-- A second sample WAV path for batch scenarios. -/
def samplePath2 : FPath := ⟨"/media", "talk", ".wav"⟩

/-- A world whose transcription pipeline always raises. -/
def failPipeWorld : World := { baseWorld with pipelineRun := fun _ => some "boom" }

/-- Witness for C1: the pipeline raises on both files of a two-file batch and
both are still dispatched, with the exception logged. -/
theorem pipeline_exception_is_caught_and_batch_continues_witness :
    transcribe_file failPipeWorld samplePath "EN" =
      (PyResult.ok (),
       [Event.printed ("Transcribing file: " ++ samplePath.toStr),
        Event.pipelineInvoked (mkConfig samplePath "EN" "KEY-EN"),
        Event.logged ("Error during transcription: " ++ "boom"),
        Event.printed "Error during transcription. Check the logs for more information."]) ∧
    (processDir failPipeWorld 0 [samplePath, samplePath2]).1 = PyResult.ok () ∧
    ((processDir failPipeWorld 0 [samplePath, samplePath2]).2.1.filter Event.isDispatch).length = 2 :=
  ⟨(pipeline_exception_is_caught_and_batch_continues failPipeWorld samplePath "EN" "KEY-EN"
      "boom" [samplePath, samplePath2] 0 (by decide) (by decide) (by decide) (by decide)
      (by decide)).2.1,
   (pipeline_exception_is_caught_and_batch_continues failPipeWorld samplePath "EN" "KEY-EN"
      "boom" [samplePath, samplePath2] 0 (by decide) (by decide) (by decide) (by decide)
      (by decide)).2.2.1,
   (pipeline_exception_is_caught_and_batch_continues failPipeWorld samplePath "EN" "KEY-EN"
      "boom" [samplePath, samplePath2] 0 (by decide) (by decide) (by decide) (by decide)
      (by decide)).2.2.2⟩

/-- C8: for a WAV file that passes the probe with a resolved credential, the
pipeline is invoked exactly once, with exactly the bundle `mkConfig`: the one
file as sole input, 3 download retries, no playlist filtering, the selected
language, the resolved credential as sole token, maximum cutting duration 5,
minimum 1 word per segment, exactly the TXT and SRT output formats, and the
file's parent directory as output directory. -/
theorem pipeline_config_bundle_contents (w : World) (fp : FPath) (lang k : String)
    (hwav : is_wav_file w fp = true)
    (hkey : LANGUAGE_API_KEYS w.env (strUpper lang) = some k)
    (hk : k ≠ "") :
    (transcribe_file w fp lang).2.filter Event.isPipelineInvocation =
      [Event.pipelineInvoked (mkConfig fp lang k)] ∧
    (mkConfig fp lang k).input.urls_or_paths = [fp.toStr] ∧
    (mkConfig fp lang k).input.download_retries = 3 ∧
    (mkConfig fp lang k).input.playlist_items = "" ∧
    (mkConfig fp lang k).whisper.language = lang ∧
    (mkConfig fp lang k).wit.wit_client_access_tokens = [k] ∧
    (mkConfig fp lang k).wit.max_cutting_duration = 5 ∧
    (mkConfig fp lang k).output.min_words_per_segment = 1 ∧
    (mkConfig fp lang k).output.output_formats = [TranscriptType.TXT, TranscriptType.SRT] ∧
    (mkConfig fp lang k).output.output_dir = fp.parent := by
  refine ⟨?_, rfl, rfl, rfl, rfl, rfl, rfl, rfl, rfl, rfl⟩
  cases hp : w.pipelineRun (mkConfig fp lang k) with
  | none => rw [transcribe_file_success_trace w fp lang k hwav hkey hk hp]; rfl
  | some e => rw [transcribe_file_error_trace w fp lang k e hwav hkey hk hp]; rfl

/-- Witness for C8 at a concrete input, with a lowercase language sign to
exercise the case-insensitive lookup. -/
theorem pipeline_config_bundle_contents_witness :
    (transcribe_file baseWorld samplePath "en").2.filter Event.isPipelineInvocation =
      [Event.pipelineInvoked (mkConfig samplePath "en" "KEY-EN")] :=
  (pipeline_config_bundle_contents baseWorld samplePath "en" "KEY-EN"
    (by decide) (by decide) (by decide)).1

/-- C2: a non-zero exit of the external transcoder (either `ffmpeg` entry
point) or of the downloader is logged, reported to the user, and terminates
the whole process with exit status 1; in single-file Local mode with a failing
`.mp3` conversion, the transcription pipeline is never invoked and no dispatch
happens — the failure is fatal to the entire run. -/
theorem converter_or_downloader_failure_is_fatal
    (w : World) (video mp3 : FPath) (url : String)
    (hv : w.procExit (ffmpegVideoCmd video) ≠ 0)
    (hm : w.procExit (ffmpegMp3Cmd mp3) ≠ 0)
    (hy : w.procExit (ytDlpCmd url) ≠ 0)
    (hchoice : strUpper (strTrim (w.stdin 0)) = "L")
    (hpath : w.parsePath (w.stdin 1) = mp3)
    (hdir : w.isDir mp3 = false)
    (hext : strLower mp3.suffix = ".mp3") :
    convert_video_to_audio w video =
      (PyResult.exited 1,
       [Event.ranProcess (ffmpegVideoCmd video),
        Event.logged "Error converting video to audio: CalledProcessError",
        Event.printed "Error converting video to audio. Check the logs for more information."]) ∧
    convert_mp3_to_wav w mp3 =
      (PyResult.exited 1,
       [Event.ranProcess (ffmpegMp3Cmd mp3),
        Event.logged "Error converting MP3 to WAV: CalledProcessError",
        Event.printed "Error converting MP3 to WAV. Check the logs for more information."]) ∧
    download_youtube_audio w url =
      (PyResult.exited 1,
       [Event.ranProcess (ytDlpCmd url),
        Event.logged "Error downloading YouTube audio: CalledProcessError",
        Event.printed "Error downloading YouTube audio. Check the logs for more information."]) ∧
    (mainEntry w).1 = PyResult.exited 1 ∧
    (mainEntry w).2.filter Event.isPipelineInvocation = [] ∧
    (mainEntry w).2.filter Event.isDispatch = [] := by
  have hconv_v : convert_video_to_audio w video =
      (PyResult.exited 1,
       [Event.ranProcess (ffmpegVideoCmd video),
        Event.logged "Error converting video to audio: CalledProcessError",
        Event.printed "Error converting video to audio. Check the logs for more information."]) := by
    simp [convert_video_to_audio, hv]
  have hconv_m : convert_mp3_to_wav w mp3 =
      (PyResult.exited 1,
       [Event.ranProcess (ffmpegMp3Cmd mp3),
        Event.logged "Error converting MP3 to WAV: CalledProcessError",
        Event.printed "Error converting MP3 to WAV. Check the logs for more information."]) := by
    simp [convert_mp3_to_wav, hm]
  have hdl : download_youtube_audio w url =
      (PyResult.exited 1,
       [Event.ranProcess (ytDlpCmd url),
        Event.logged "Error downloading YouTube audio: CalledProcessError",
        Event.printed "Error downloading YouTube audio. Check the logs for more information."]) := by
    simp [download_youtube_audio, hy]
  have hmain : mainEntry w =
      (PyResult.exited 1,
       [Event.prompted choicePrompt,
        Event.prompted "Enter the path to the local file or directory: ",
        Event.ranProcess (ffmpegMp3Cmd mp3),
        Event.logged "Error converting MP3 to WAV: CalledProcessError",
        Event.printed "Error converting MP3 to WAV. Check the logs for more information."]) := by
    simp [mainEntry, hchoice, hpath, hdir, hext, hconv_m]
  exact ⟨hconv_v, hconv_m, hdl, by rw [hmain], by rw [hmain]; rfl, by rw [hmain]; rfl⟩

/-- A sample `.mp3` path. -/
def mp3Path : FPath := ⟨"/media", "song", ".mp3"⟩

/-- A world where every external process fails and the operator picks Local
mode with a single `.mp3` file. -/
def failProcWorld : World :=
  { baseWorld with
      procExit := fun _ => 1
    , parsePath := fun _ => mp3Path
    , stdin := fun n => if n = 1 then "/media/song.mp3" else "L" }

/-- Witness for C2: a failing transcoder in single-file Local mode exits the
process with status 1 and the pipeline is never invoked. -/
theorem converter_or_downloader_failure_is_fatal_witness :
    (mainEntry failProcWorld).1 = PyResult.exited 1 ∧
    (mainEntry failProcWorld).2.filter Event.isPipelineInvocation = [] :=
  ⟨(converter_or_downloader_failure_is_fatal failProcWorld samplePath mp3Path "https://u"
      (by decide) (by decide) (by decide) (by decide) (by decide) (by decide)
      (by decide)).2.2.2.1,
   (converter_or_downloader_failure_is_fatal failProcWorld samplePath mp3Path "https://u"
      (by decide) (by decide) (by decide) (by decide) (by decide) (by decide)
      (by decide)).2.2.2.2.1⟩

/-- C7: in Local mode on a directory the orchestrator walks exactly the
immediate entries in enumeration order, converting only the `.mp3` and video
entries and dispatching each classified entry once; for the concrete
one-`.wav`, one-`.mp3`, one-`.mkv` directory, conversion runs exactly for the
`.mp3` and `.mkv` entries and dispatch happens exactly three times, in
enumeration order; an entry of any other extension is skipped with no prompt
and no dispatch. -/
theorem directory_mode_classification
    (w : World) (d fa fb fc : FPath)
    (hchoice : strUpper (strTrim (w.stdin 0)) = "L")
    (hpath : w.parsePath (w.stdin 1) = d)
    (hdir : w.isDir d = true)
    (hlist : w.listDir d = [fa, fb, fc])
    (hfa : strLower fa.suffix = ".wav")
    (hfb : strLower fb.suffix = ".mp3")
    (hfc : strLower fc.suffix = ".mkv")
    (hcm : w.procExit (ffmpegMp3Cmd fb) = 0)
    (hcv : w.procExit (ffmpegVideoCmd fc) = 0) :
    (mainEntry w).2.filter Event.isConversion =
      [Event.ranProcess (ffmpegMp3Cmd fb), Event.ranProcess (ffmpegVideoCmd fc)] ∧
    (mainEntry w).2.filter Event.isDispatch =
      [Event.dispatched fa (w.stdin 2),
       Event.dispatched (fb.with_suffix ".wav") (w.stdin 3),
       Event.dispatched (fc.with_suffix ".wav") (w.stdin 4)] ∧
    (∀ (g : FPath) (idx : Nat),
        strLower g.suffix ∉ ([".wav", ".mp3", ".mp4", ".mkv", ".avi"] : List String) →
        processEntry w idx g = (PyResult.ok (), [], idx)) := by
  have hfc2 : [".mp4", ".mkv", ".avi"].contains (strLower fc.suffix) = true := by
    simp [hfc]
  have e1 := processEntry_wav w 2 fa hfa
  have e2 := processEntry_mp3 w (2 + 1) fb hfb hcm
  have e3 := processEntry_video w (2 + 1 + 1) fc hfc2 hcv
  have t1 := transcribe_file_trace_free w fa (w.stdin 2)
  have t2 := transcribe_file_trace_free w (fb.with_suffix ".wav") (w.stdin (2 + 1))
  have t3 := transcribe_file_trace_free w (fc.with_suffix ".wav") (w.stdin (2 + 1 + 1))
  have hmain2 : (mainEntry w).2 =
      [Event.prompted choicePrompt,
       Event.prompted "Enter the path to the local file or directory: "] ++
      (processDir w 2 [fa, fb, fc]).2.1 := by
    simp [mainEntry, hchoice, hpath, hdir, hlist]
  refine ⟨?_, ?_, fun g idx hg => processEntry_other w idx g hg⟩
  · rw [hmain2, processDir_cons w 2 (2 + 1) fa [fb, fc] _ e1,
      processDir_cons w (2 + 1) (2 + 1 + 1) fb [fc] _ e2,
      processDir_cons w (2 + 1 + 1) (2 + 1 + 1 + 1) fc [] _ e3]
    simp [processDir, List.filter_append, Event.isConversion, ffmpegMp3Cmd, ffmpegVideoCmd,
      t1.2.1, t2.2.1, t3.2.1]
  · rw [hmain2, processDir_cons w 2 (2 + 1) fa [fb, fc] _ e1,
      processDir_cons w (2 + 1) (2 + 1 + 1) fb [fc] _ e2,
      processDir_cons w (2 + 1 + 1) (2 + 1 + 1 + 1) fc [] _ e3]
    simp [processDir, List.filter_append, Event.isDispatch, t1.1, t2.1, t3.1]

/-- A sample directory and its three entries. -/
def dirPath : FPath := ⟨"/media", "batch", ""⟩

/-- The `.wav` entry of the sample directory. -/
def faPath : FPath := ⟨"/media/batch", "a", ".wav"⟩

/-- The `.mp3` entry of the sample directory. -/
def fbPath : FPath := ⟨"/media/batch", "b", ".mp3"⟩

/-- The `.mkv` entry of the sample directory. -/
def fcPath : FPath := ⟨"/media/batch", "c", ".mkv"⟩

/-- A world where Local mode is pointed at the sample directory and every
language prompt is answered `EN`. -/
def dirWorld : World :=
  { baseWorld with
      parsePath := fun _ => dirPath
    , isDir := fun _ => true
    , listDir := fun _ => [faPath, fbPath, fcPath]
    , stdin := fun n => if n = 0 then "L" else if n = 1 then "/media/batch" else "EN" }

/-- Witness for C7: on the concrete three-entry directory, exactly two
conversions (for the `.mp3` and `.mkv` entries) and exactly three dispatches
happen, in enumeration order. -/
theorem directory_mode_classification_witness :
    (mainEntry dirWorld).2.filter Event.isConversion =
      [Event.ranProcess (ffmpegMp3Cmd fbPath), Event.ranProcess (ffmpegVideoCmd fcPath)] ∧
    (mainEntry dirWorld).2.filter Event.isDispatch =
      [Event.dispatched faPath "EN",
       Event.dispatched (fbPath.with_suffix ".wav") "EN",
       Event.dispatched (fcPath.with_suffix ".wav") "EN"] :=
  ⟨(directory_mode_classification dirWorld dirPath faPath fbPath fcPath
      (by decide) (by decide) (by decide) (by decide) (by decide) (by decide) (by decide)
      (by decide) (by decide)).1,
   (directory_mode_classification dirWorld dirPath faPath fbPath fcPath
      (by decide) (by decide) (by decide) (by decide) (by decide) (by decide) (by decide)
      (by decide) (by decide)).2.1⟩

/-- C10: in single-file Local mode a path with an unrecognized extension is
not skipped at classification: the operator is prompted for a language and the
path is dispatched to `transcribe_file` (which then rejects it at the probe),
with no conversion — in contrast to directory mode, where the same entry would
be skipped with no prompt and no dispatch. -/
theorem single_file_unknown_extension_still_dispatched (w : World) (fp : FPath)
    (hchoice : strUpper (strTrim (w.stdin 0)) = "L")
    (hpath : w.parsePath (w.stdin 1) = fp)
    (hdir : w.isDir fp = false)
    (hext : strLower fp.suffix ∉ ([".wav", ".mp3", ".mp4", ".mkv", ".avi"] : List String))
    (hprobe : is_wav_file w fp = false) :
    (mainEntry w).1 = PyResult.ok () ∧
    (mainEntry w).2.filter Event.isDispatch = [Event.dispatched fp (w.stdin 2)] ∧
    (mainEntry w).2.filter Event.isConversion = [] ∧
    Event.prompted singleLangPrompt ∈ (mainEntry w).2 ∧
    Event.printed ("Skipping file " ++ fp.toStr ++ " as it is not in WAV format.") ∈
      (mainEntry w).2 ∧
    (∀ idx : Nat, processEntry w idx fp = (PyResult.ok (), [], idx)) := by
  have hext2 := hext
  simp at hext2
  have ht : transcribe_file w fp (w.stdin 2) =
      (PyResult.ok (),
       [Event.printed ("Skipping file " ++ fp.toStr ++ " as it is not in WAV format.")]) := by
    simp [transcribe_file, hprobe]
  have hmain : mainEntry w =
      (PyResult.ok (),
       [Event.prompted choicePrompt,
        Event.prompted "Enter the path to the local file or directory: ",
        Event.prompted singleLangPrompt,
        Event.dispatched fp (w.stdin 2),
        Event.printed ("Skipping file " ++ fp.toStr ++ " as it is not in WAV format.")]) := by
    simp [mainEntry, hchoice, hpath, hdir, hext2.2.1, hext2.2.2.1, hext2.2.2.2.1,
      hext2.2.2.2.2, ht]
  exact ⟨by rw [hmain], by rw [hmain]; rfl, by rw [hmain]; rfl,
    by rw [hmain]; simp, by rw [hmain]; simp,
    fun idx => processEntry_other w idx fp hext⟩

/-- A sample path with an unrecognized extension. -/
def txtPath : FPath := ⟨"/media", "notes", ".txt"⟩

/-- A world where Local mode is pointed at the `.txt` file and no file is
readable. -/
def singleTxtWorld : World :=
  { baseWorld with parsePath := fun _ => txtPath, fileBytes := fun _ => none }

/-- Witness for C10: the `.txt` file is dispatched once in single-file mode
but would be skipped entirely as a directory entry. -/
theorem single_file_unknown_extension_still_dispatched_witness :
    (mainEntry singleTxtWorld).2.filter Event.isDispatch =
      [Event.dispatched txtPath "L"] ∧
    processEntry singleTxtWorld 5 txtPath = (PyResult.ok (), [], 5) :=
  ⟨(single_file_unknown_extension_still_dispatched singleTxtWorld txtPath
      (by decide) (by decide) (by decide) (by decide) (by decide)).2.1,
   (single_file_unknown_extension_still_dispatched singleTxtWorld txtPath
      (by decide) (by decide) (by decide) (by decide) (by decide)).2.2.2.2.2 5⟩
